import Mathlib

/-!
# Verification of the autometrics runtime tracking core

Shallow embedding of `src/autometrics/src/lib.rs` and of the parts of the
library it re-exports (the `labels`, `tracker` and `task_local` modules and
the `autometrics`/`ErrorLabels` macros are declared in `lib.rs` but their
bodies are not part of the published source tree; those parts are modelled
from the specification, each such definition says so in its doc comment).
-/

set_option autoImplicit false

namespace Autometrics

/-! ## Result labels -/

/-- The two values of the `result` label (`"ok"` / `"error"`). -/
inductive ResultLabel where
  | ok
  | error
deriving DecidableEq, Repr

/-- Modelled from the spec: the part of the label computation (module
`labels`, not in the published source) that maps a `Result`-typed return
value to its `result` label: the success variant yields `ok`, the error
variant yields `error`.  `Except ε α` stands for Rust's `Result<α, ε>`. -/
def resultLabel {ε α : Type} : Except ε α → ResultLabel
  | .ok _ => .ok
  | .error _ => .error

/-! ## Declarative enum tagging (`ErrorLabels` derive) -/

/-- One variant of an error enum deriving `ErrorLabels`: its name and the
optional `#[label(result = "...")]` tag declared on it. -/
structure Variant where
  name : String
  tag : Option ResultLabel
deriving DecidableEq, Repr

/-- Modelled from the spec: the mapping produced by the `ErrorLabels` derive
macro (not in the published source) from a variant to its `result` label —
the declared tag if present, defaulting to `error` for unlabeled variants. -/
def variantLabel (v : Variant) : ResultLabel :=
  v.tag.getD ResultLabel.error

/-- Modelled from the spec: `result` label of a `Result`-typed call whose
error payload derives `ErrorLabels`: on the success path the label is `ok`;
on the error path the matching variant's declared tag decides the label. -/
def resultLabelTagged {α : Type} : Except Variant α → ResultLabel
  | .ok _ => .ok
  | .error e => variantLabel e

/-! ## `ok_if` / `error_if` predicates -/

/-- The `result`-classification configured at a call site for a non-`Result`
return type: no predicate, an `ok_if` predicate, or an `error_if` predicate
(the macro accepts at most one of the two). -/
inductive ResultSpec (α : Type) where
  | noPredicate
  | okIf (p : α → Bool)
  | errorIf (p : α → Bool)

/-- Modelled from the spec: the `result` label emitted for a non-`Result`
return value under the call site's configuration (code generated by the
`autometrics` macro, not in the published source): `ok_if p` yields `ok`
iff `p` holds of the return value, `error_if p` yields `error` iff `p`
holds, and with no predicate configured no `result` label is emitted. -/
def predicateResultLabel {α : Type} : ResultSpec α → α → Option ResultLabel
  | .noPredicate, _ => none
  | .okIf p, v => some (if p v then ResultLabel.ok else ResultLabel.error)
  | .errorIf p, v => some (if p v then ResultLabel.error else ResultLabel.ok)

/-! ## Histogram bucket policy

From `lib.rs`:
```
#[cfg(any(feature = "prometheus", feature = "prometheus-exporter"))]
pub(crate) const HISTOGRAM_BUCKETS: [f64; 14] = [
    0.005, 0.01, 0.025, 0.05, 0.075, 0.1, 0.25, 0.5, 0.75, 1.0, 2.5, 5.0, 7.5, 10.0,
];
```
The literals are exact decimals, embedded as rationals. -/

/-- The process-wide latency histogram bucket boundaries, in seconds
(`HISTOGRAM_BUCKETS` in `lib.rs`). -/
def HISTOGRAM_BUCKETS : List ℚ :=
  [0.005, 0.01, 0.025, 0.05, 0.075, 0.1, 0.25, 0.5, 0.75, 1.0, 2.5, 5.0, 7.5, 10.0]

/-- The cargo feature selection of a build, as far as the bucket constant's
`#[cfg(...)]` attribute is concerned. -/
structure Features where
  prometheus : Bool
  prometheusExporter : Bool
deriving DecidableEq, Repr

/-- The bucket constant as seen by a build with feature set `f`: the
`#[cfg(any(feature = "prometheus", feature = "prometheus-exporter"))]`
attribute on `HISTOGRAM_BUCKETS` means the constant exists only when one of
the two features is enabled. -/
def histogramBucketsInBuild (f : Features) : Option (List ℚ) :=
  if f.prometheus || f.prometheusExporter then some HISTOGRAM_BUCKETS else none

/-! ## Concurrency gauge -/

/-- How an instrumented call exits; the gauge treats them all alike. -/
inductive ExitKind where
  | success
  | failure
  | cancelled
deriving DecidableEq, Repr

/-- The per-call-site configuration relevant to the gauge: whether the call
site passed `track_concurrency` to the `autometrics` macro. -/
structure CallSite where
  trackConcurrency : Bool
deriving DecidableEq, Repr

/-- Entry into and exit out of an instrumented call, as seen by the gauge
keyed by the call site's function/module/caller label subset. -/
inductive GaugeEvent where
  | enter
  | exitCall (k : ExitKind)
deriving DecidableEq, Repr

/-- Modelled from the spec: the gauge adjustment made by the generated
wrapper (module `tracker`, not in the published source): `+1` at call entry
and `-1` at call exit regardless of the exit kind, and only when the call
site opted into concurrency tracking. -/
def gaugeDelta (site : CallSite) : GaugeEvent → Int
  | .enter => if site.trackConcurrency then 1 else 0
  | .exitCall _ => if site.trackConcurrency then -1 else 0

/-- The gauge value after a window of entry/exit events, starting from `g`. -/
def runGauge (site : CallSite) (g : Int) : List GaugeEvent → Int
  | [] => g
  | e :: rest => runGauge site (g + gaugeDelta site e) rest

/-- Number of call entries in a window. -/
def countEnters : List GaugeEvent → Int
  | [] => 0
  | .enter :: rest => countEnters rest + 1
  | .exitCall _ :: rest => countEnters rest

/-- Number of call exits in a window, of any exit kind. -/
def countExits : List GaugeEvent → Int
  | [] => 0
  | .enter :: rest => countExits rest
  | .exitCall _ :: rest => countExits rest + 1

/-! ## Tracker operations never propagate errors -/

/-- A metrics backend whose three recording operations may each fail (for
example because the backend is unavailable): each takes the label set and
the backend state and either returns the updated state or an error. -/
structure Backend (σ : Type) where
  recordCallOp : List (String × String) → σ → Except String σ
  observeLatencyOp : ℚ → List (String × String) → σ → Except String σ
  setConcurrencyOp : Int → List (String × String) → σ → Except String σ

/-- Modelled from the spec: a recording failure is absorbed — the backend
state is left as it was and no error escapes. -/
def absorb {σ : Type} (r : Except String σ) (st : σ) : σ :=
  match r with
  | .ok st1 => st1
  | .error _ => st

/-- Modelled from the spec: the Tracker's `record_call`, fire-and-forget
over the fallible backend. -/
def trackerRecordCall {σ : Type} (b : Backend σ) (labels : List (String × String))
    (st : σ) : σ :=
  absorb (b.recordCallOp labels st) st

/-- Modelled from the spec: the Tracker's `observe_latency`, fire-and-forget
over the fallible backend. -/
def trackerObserveLatency {σ : Type} (b : Backend σ) (d : ℚ)
    (labels : List (String × String)) (st : σ) : σ :=
  absorb (b.observeLatencyOp d labels st) st

/-- Modelled from the spec: the Tracker's `set_concurrency`, fire-and-forget
over the fallible backend. -/
def trackerSetConcurrency {σ : Type} (b : Backend σ) (delta : Int)
    (labels : List (String × String)) (st : σ) : σ :=
  absorb (b.setConcurrencyOp delta labels st) st

/-- Modelled from the spec: the wrapper the `autometrics` macro generates
around an instrumented function `f` (not in the published source): adjust
the gauge at entry when opted in, run `f`, record the call counter and the
latency histogram, adjust the gauge back at exit, and return `f`'s own
result. -/
def instrumentedCall {σ ε α : Type} (b : Backend σ) (site : CallSite)
    (labels : List (String × String)) (d : ℚ) (f : Unit → Except ε α)
    (st : σ) : Except ε α × σ :=
  let st1 := if site.trackConcurrency then trackerSetConcurrency b 1 labels st else st
  let r := f ()
  let st2 := trackerObserveLatency b d labels st1
  let st3 := trackerRecordCall b labels st2
  let st4 := if site.trackConcurrency then trackerSetConcurrency b (-1) labels st3 else st3
  (r, st4)

/-! ## Label building -/

/-- Replace every occurrence of the `::` scope separator with `.` in a
character list, scanning left to right exactly as `str::replace` does for
this pattern. -/
def replaceScopeSep : List Char → List Char
  | [] => []
  | ':' :: ':' :: rest => '.' :: replaceScopeSep rest
  | c :: rest => c :: replaceScopeSep rest

/-- The module label value: the module path with `::` replaced by `.`
(documented on the `autometrics` macro in `lib.rs`). -/
def normalizeModulePath (s : String) : String :=
  String.mk (replaceScopeSep s.data)

/-- Modelled from the spec: the per-call label set (module `labels`, not in
the published source).  Per the `lib.rs` documentation the `function` and
`module` labels are attached to every metric, `module` being the module
path with `::` replaced by `.`; the counter additionally carries `caller`
and, when a classification applies, `result`. -/
def build_labels (function : String) (modulePath : String) (caller : String)
    (result : Option ResultLabel) : List (String × String) :=
  [("function", function), ("module", normalizeModulePath modulePath), ("caller", caller)]
    ++ (match result with
        | some ResultLabel.ok => [("result", "ok")]
        | some ResultLabel.error => [("result", "error")]
        | none => [])

/-! ## Caller context default value

From `lib.rs`:
```
static CALLER_KEY: RefCell<Option<&'static str>> = const { RefCell::new(Some("")) };
```
-/

/-- The initial content of the `CALLER` task-local slot on a fresh execution
context (`RefCell::new(Some(""))` in `lib.rs`): `some ""`, not `none`. -/
def CALLER_initial : Option String := some ""

/-- Modelled from the spec: reading the current caller frame (the `get` of
the `task_local::LocalKey`, not in the published source) returns the stored
value, and fails (`none`) only if the slot were uninitialized. -/
def localKeyRead (slot : Option String) : Option String := slot

/-! ## Caller context propagation -/

/-- How an instrumented call's own body finishes once its callees are done:
a normal return, an early return, or an error thrown to the caller. -/
inductive ExitPath where
  | normalReturn
  | earlyReturn
  | errorExit
deriving DecidableEq, Repr

/-- A program fragment as seen by the caller context: a sequence of
instrumented calls in first-child/next-sibling form.  `call name body ex
next` is an instrumented call named `name` whose body performs the calls of
`body` and then finishes via `ex`, followed by the calls of `next`. -/
inductive Prog where
  | done
  | call (name : String) (body : Prog) (ex : ExitPath) (next : Prog)
deriving DecidableEq, Repr

/-- An observation made by one executed call: its `function` label and the
`caller` label it read from the caller context at entry. -/
abbrev Obs := String × String

/-- Modelled from the spec: execution of a program fragment threading the
mutable caller frame through it, as the wrapper generated by the
`autometrics` macro does (the macro and the `task_local` module are not in
the published source).  For each call the wrapper saves the previous frame
(`push` returns it), records the call's observation `(name, previous)`,
runs the body with the frame set to `name`, and restores the saved frame on
every exit path — also when the body or the call itself exits via an
error, in which case the calls that follow it are skipped and the error
propagates.  Returns the observations, the final frame, and whether an
error propagates out of the fragment. -/
def execProg (frame : String) : Prog → List Obs × String × Bool
  | .done => ([], frame, false)
  | .call name body ex next =>
    let prev := frame
    let rBody := execProg name body
    let restored := prev
    let errHere := rBody.2.2 || ex == ExitPath.errorExit
    if errHere then ((name, prev) :: rBody.1, restored, true)
    else
      let rNext := execProg restored next
      ((name, prev) :: rBody.1 ++ rNext.1, rNext.2.1, rNext.2.2)

/-- The specification's view of the same execution, with no mutable frame:
every call simply observes as `caller` the name of the directly enclosing
instrumented call (`parent`, the empty string at top level), and calls
following a propagating error are skipped. -/
def specProg (parent : String) : Prog → List Obs × Bool
  | .done => ([], false)
  | .call name body ex next =>
    let rBody := specProg name body
    let errHere := rBody.2 || ex == ExitPath.errorExit
    if errHere then ((name, parent) :: rBody.1, true)
    else
      let rNext := specProg parent next
      ((name, parent) :: rBody.1 ++ rNext.1, rNext.2)

/-! ## Theorems -/

/-- C1: the stateful push/restore execution coincides with the
specification in which every call's `caller` label is the `function` label
of the directly enclosing instrumented call, and the frame left behind by
any fragment equals the frame it started from — on normal return, early
return and error paths alike.  At top level the frame is the empty string,
so a call made after an enclosing call has exited observes `""` again. -/
theorem caller_context_invariant (frame : String) (p : Prog) :
    execProg frame p = ((specProg frame p).1, frame, (specProg frame p).2) := by
  induction p generalizing frame with
  | done => rfl
  | call name body ex next ihBody ihNext =>
    cases h : (specProg name body).2 || (ex == ExitPath.errorExit) <;>
      simp [execProg, specProg, ihBody, ihNext, h]

/-- C2: for a `Result`-typed call the `result` label is `ok` iff the success
variant was returned and `error` iff the error variant was returned; the
label is computed from the variant alone. -/
theorem result_label_of_variant {ε α : Type} (r : Except ε α) :
    (resultLabel r = ResultLabel.ok ↔ ∃ a, r = Except.ok a) ∧
    (resultLabel r = ResultLabel.error ↔ ∃ e, r = Except.error e) := by
  cases r <;> simp [resultLabel]

/-- C3: for an error payload deriving `ErrorLabels`, the `result` label
equals the tag declared on the matching variant — in particular a variant
tagged `ok` yields `result = ok` even though the call exited via the error
path — and a variant without an explicit tag defaults to `error`. -/
theorem error_labels_tagging (α : Type) (n : String) (t : ResultLabel) :
    resultLabelTagged (α := α) (Except.error ⟨n, some t⟩) = t ∧
    resultLabelTagged (α := α) (Except.error ⟨n, none⟩) = ResultLabel.error := by
  constructor
  · simp [resultLabelTagged, variantLabel]
  · simp [resultLabelTagged, variantLabel]

/-- C5: with `ok_if = p` configured the `result` label is `ok` iff `p`
holds of the return value (and `error` otherwise); `error_if p` is the
logical negation of `ok_if p`; and with neither predicate configured no
`result` label is emitted for a non-`Result` return type. -/
theorem ok_if_error_if_classification {α : Type} (p : α → Bool) (v : α) :
    (predicateResultLabel (ResultSpec.okIf p) v = some ResultLabel.ok ↔ p v = true) ∧
    (predicateResultLabel (ResultSpec.okIf p) v = some ResultLabel.error ↔ p v = false) ∧
    predicateResultLabel (ResultSpec.errorIf p) v
      = predicateResultLabel (ResultSpec.okIf (fun x => !p x)) v ∧
    predicateResultLabel (ResultSpec.noPredicate : ResultSpec α) v = none := by
  cases h : p v <;> simp [predicateResultLabel, h]

/-- C6: the histogram bucket policy is exactly the fixed 14-element
sequence 0.005 … 10.0 seconds, with each boundary strictly less than the
next. -/
theorem histogram_buckets_policy :
    HISTOGRAM_BUCKETS.length = 14 ∧
    HISTOGRAM_BUCKETS.Chain' (· < ·) ∧
    HISTOGRAM_BUCKETS
      = [0.005, 0.01, 0.025, 0.05, 0.075, 0.1, 0.25, 0.5, 0.75, 1.0, 2.5, 5.0, 7.5, 10.0] := by
  refine ⟨rfl, ?_, rfl⟩
  simp only [HISTOGRAM_BUCKETS, List.chain'_cons, List.chain'_singleton, and_true]
  norm_num

/-- C10: the bucket constant exists in a build iff the `prometheus` or
`prometheus-exporter` cargo feature is enabled; with neither feature no
bucket policy is defined at all. -/
theorem histogram_buckets_feature_gated (f : Features) :
    ((histogramBucketsInBuild f).isSome = (f.prometheus || f.prometheusExporter)) ∧
    (histogramBucketsInBuild ⟨false, false⟩ = none) := by
  obtain ⟨p, e⟩ := f
  cases p <;> cases e <;> simp [histogramBucketsInBuild]

/-- C7: the caller slot of a fresh execution context holds the empty
string, never an absent state: a read before any push succeeds and returns
`""`. -/
theorem caller_default_empty :
    localKeyRead CALLER_initial = some "" ∧
    (localKeyRead CALLER_initial).isSome = true :=
  ⟨rfl, rfl⟩

/-- C4: over any window of events the gauge's net change equals calls
entered minus calls exited when the call site opted into concurrency
tracking — exits of every kind (success, error, cancellation) count — and
the gauge is never touched when the site did not opt in. -/
theorem concurrency_gauge_net_change (site : CallSite) (g : Int)
    (evs : List GaugeEvent) :
    runGauge site g evs
      = g + (if site.trackConcurrency then countEnters evs - countExits evs else 0) := by
  induction evs generalizing g with
  | nil => simp [runGauge, countEnters, countExits]
  | cons e rest ih =>
    cases e <;> cases h : site.trackConcurrency <;>
      simp [runGauge, countEnters, countExits, gaugeDelta, h, ih] <;> ring

/-- C8: the three Tracker operations never propagate an error to the
instrumented function's caller: for every backend, including one whose
recording operations all fail, the wrapped call returns exactly the
instrumented function's own result. -/
theorem tracker_failures_absorbed {σ ε α : Type} (b : Backend σ)
    (site : CallSite) (labels : List (String × String)) (d : ℚ)
    (f : Unit → Except ε α) (st : σ) :
    (instrumentedCall b site labels d f st).1 = f () := rfl

/-- C9: every label set contains the mandatory `function` and `module`
keys, the `module` value is the module path with `::` replaced by `.`, and
`build_labels` is deterministic: equal inputs yield the identical label
set. -/
theorem build_labels_mandatory_keys (f m c : String) (r : Option ResultLabel) :
    (build_labels f m c r).lookup "function" = some f ∧
    (build_labels f m c r).lookup "module" = some (normalizeModulePath m) ∧
    (∀ f1 m1 c1 r1, f = f1 → m = m1 → c = c1 → r = r1 →
      build_labels f m c r = build_labels f1 m1 c1 r1) := by
  refine ⟨?_, ?_, ?_⟩
  · simp [build_labels, List.lookup]
  · simp [build_labels, List.lookup]
  · intro f1 m1 c1 r1 hf hm hc hr
    rw [hf, hm, hc, hr]

/-- Witness for C9 at a concrete input: the hypotheses of the determinism
conjunct are discharged at `"f"`, `"a::b"`, `""`, `none`. -/
theorem build_labels_mandatory_keys_witness :
    (build_labels "f" "a::b" "" none).lookup "module" = some "a.b" ∧
    build_labels "f" "a::b" "" none = build_labels "f" "a::b" "" none := by
  have h := build_labels_mandatory_keys "f" "a::b" "" none
  have hmod : normalizeModulePath "a::b" = "a.b" := rfl
  exact ⟨hmod ▸ h.2.1, h.2.2 "f" "a::b" "" none rfl rfl rfl rfl⟩

end Autometrics
